import Mathlib

/-!
Shallow embedding of the admission-control (rate limiter) and cache
services of the delivery-system backend
(internal/services/rate_limiter_service.go, internal/services/cache_service.go,
internal/redis/redis.go), together with theorems settling the spec claims.

Machine integers: Go `int` is modelled as `Int`; the `atomic.Uint64`
metrics counters are modelled as `Nat` with explicit `% 2^64` on addition.
Go `time.Time` values are modelled as `Option Int` (seconds), `none` being
the zero value `time.Time{}`; `time.Duration`s returned by Redis TTL
queries are modelled in whole seconds as `Int` (Redis reports `-2` for a
key that does not exist). Errors are modelled as `Option String`
(`none` = nil).
-/

namespace DeliverySystem

/-- Go `math.MaxInt` on a 64-bit platform. -/
def maxInt : Int := 2 ^ 63 - 1

/-- The `config.RateLimitConfig` struct as consumed by `RateLimiterService`
(fields read at rate_limiter_service.go:63,73,75,119). -/
structure RateLimitConfig where
  Enabled : Bool
  DefaultRPM : Int
  VIPRPM : Int
  BanDuration : Int
  deriving Repr, DecidableEq

/-- Result struct `RateLimitResult` (rate_limiter_service.go:45-52). `ResetAt` and
`BannedUntil` are `none` when the Go struct leaves them as the zero
`time.Time`. -/
structure RateLimitResult where
  Allowed : Bool
  Remaining : Int
  Limit : Int
  ResetAt : Option Int
  BannedUntil : Option Int
  RetryAfter : Int
  deriving Repr, DecidableEq

/-- The slice of the Redis store relevant to one identity: the ban key
`rate_limit:ban:{ip}` (value and remaining TTL in seconds) and the counter
key `rate_limit:ip:{ip}` (integer value and remaining TTL in seconds).
`none` means the key is absent; the TTL field is meaningful only while the
corresponding key is present. -/
structure RedisState where
  banVal : Option String
  banTTL : Int
  counter : Option Int
  counterTTL : Int
  deriving Repr, DecidableEq

/-- Redis `TTL` on the ban key: `-2` when the key does not exist. -/
def RedisState.ttlBan (s : RedisState) : Int :=
  match s.banVal with
  | some _ => s.banTTL
  | none => -2

/-- Redis `TTL` on the counter key: `-2` when the key does not exist. -/
def RedisState.ttlCounter (s : RedisState) : Int :=
  match s.counter with
  | some _ => s.counterTTL
  | none => -2

/-- Outcome of the `client.Eval` call running the atomic script:
`normal` — the script executes on the store state; `storeError` — the
call fails with a store error; `malformed` — the call succeeds but the
reply is not a slice of length 3 (rate_limiter_service.go:105-106). -/
inductive EvalBehavior where
  | normal
  | storeError
  | malformed
  deriving Repr, DecidableEq

/-- Fault injection for the store calls one `CheckLimit` invocation makes:
whether the GET on the ban key succeeds, how `Eval` behaves, and whether
the SET creating the ban record succeeds (its error is ignored by the
code, but on failure the record is not written). -/
structure StoreBehavior where
  banGetOk : Bool
  eval : EvalBehavior
  banSetOk : Bool
  deriving Repr, DecidableEq

/-- A fully available store: every call behaves normally. -/
def normalBehavior : StoreBehavior :=
  { banGetOk := true, eval := EvalBehavior.normal, banSetOk := true }

/-- The string `banned` holds after `banned, err := client.Get(ctx, banKey).Result()`
when `err == nil`, and `""` otherwise (on `redis.Nil` for an absent key or
on a store error the error is non-nil and the value is empty), so that the
guard `err == nil && banned != ""` (rate_limiter_service.go:80,189) is
exactly `visibleBanVal ≠ ""`. -/
def visibleBanVal (banGetOk : Bool) (s : RedisState) : String :=
  if banGetOk then
    match s.banVal with
    | some v => v
    | none => ""
  else ""

/-- The tier limit: `VIPRPM` for VIPs, else `DefaultRPM`
(rate_limiter_service.go:73-76). -/
def tierLimit (cfg : RateLimitConfig) (isVIP : Bool) : Int :=
  if isVIP then cfg.VIPRPM else cfg.DefaultRPM

/-- The integer value of the counter key, 0 when absent (both the Lua
script's `GET`/`tonumber` fallback and `GetStatus`'s error fallback read
the counter this way). -/
def counterVal (s : RedisState) : Int :=
  match s.counter with
  | some c => c
  | none => 0

/-- Script `rateLimitLuaScript` (rate_limiter_service.go:15-35): read the counter
(0 when absent), add 1; if the result exceeds the limit, return
`{0, current, limit}` leaving the store untouched; otherwise
`SET key current EX ttl` (which rewrites the value AND the TTL) and return
`{1, current, limit}`. -/
def rateLimitLuaScript (limit ttl : Int) (s : RedisState) :
    (Int × Int × Int) × RedisState :=
  let current := counterVal s + 1
  if current > limit then
    ((0, current, limit), s)
  else
    ((1, current, limit), { s with counter := some current, counterTTL := ttl })

/-- Method `CheckLimit` (rate_limiter_service.go:62-145). Returns the
`(*RateLimitResult, error)` pair and the post-call store state.
`now` stands for `time.Now()` in seconds. -/
def CheckLimit (cfg : RateLimitConfig) (isVIP : Bool) (now : Int)
    (b : StoreBehavior) (s : RedisState) :
    (RateLimitResult × Option String) × RedisState :=
  if cfg.Enabled = false then
    (({ Allowed := true, Remaining := maxInt, Limit := maxInt,
        ResetAt := none, BannedUntil := none, RetryAfter := 0 }, none), s)
  else
    let limit := tierLimit cfg isVIP
    let banned := visibleBanVal b.banGetOk s
    if banned ≠ "" then
      let ttl := s.ttlBan
      (({ Allowed := false, Remaining := 0, Limit := limit,
          ResetAt := none, BannedUntil := some (now + ttl),
          RetryAfter := ttl }, none), s)
    else
      match b.eval with
      | EvalBehavior.storeError =>
        (({ Allowed := true, Remaining := limit, Limit := limit,
            ResetAt := none, BannedUntil := none, RetryAfter := 0 }, none), s)
      | EvalBehavior.malformed =>
        (({ Allowed := true, Remaining := limit, Limit := limit,
            ResetAt := none, BannedUntil := none, RetryAfter := 0 }, none), s)
      | EvalBehavior.normal =>
        let r := rateLimitLuaScript limit 60 s
        let allowed := r.1.1 = 1
        let currentCount := r.1.2.1
        if allowed then
          let ttl := r.2.ttlCounter
          (({ Allowed := true, Remaining := limit - currentCount,
              Limit := limit, ResetAt := some (now + ttl),
              BannedUntil := none, RetryAfter := 0 }, none), r.2)
        else
          let s2 := if b.banSetOk then
              { r.2 with banVal := some "1", banTTL := cfg.BanDuration }
            else r.2
          (({ Allowed := false, Remaining := 0, Limit := limit,
              ResetAt := none, BannedUntil := some (now + cfg.BanDuration),
              RetryAfter := cfg.BanDuration }, none), s2)

/-- Method `GetStatus` (rate_limiter_service.go:168-231): the non-mutating status
read. `banGetOk` / `countGetOk` inject store errors into the two GET
calls (on any error reading the counter the code falls back to count 0). -/
def GetStatus (cfg : RateLimitConfig) (isVIP : Bool) (now : Int)
    (banGetOk countGetOk : Bool) (s : RedisState) :
    (RateLimitResult × Option String) × RedisState :=
  if cfg.Enabled = false then
    (({ Allowed := true, Remaining := maxInt, Limit := maxInt,
        ResetAt := none, BannedUntil := none, RetryAfter := 0 }, none), s)
  else
    let limit := tierLimit cfg isVIP
    let banned := visibleBanVal banGetOk s
    if banned ≠ "" then
      let ttl := s.ttlBan
      (({ Allowed := false, Remaining := 0, Limit := limit,
          ResetAt := none, BannedUntil := some (now + ttl),
          RetryAfter := ttl }, none), s)
    else
      let count : Int := if countGetOk then counterVal s else 0
      let remaining0 := limit - count
      let remaining := if remaining0 < 0 then 0 else remaining0
      let ttl := s.ttlCounter
      let resetAt : Option Int := if ttl < 0 then none else some (now + ttl)
      (({ Allowed := count < limit, Remaining := remaining, Limit := limit,
          ResetAt := resetAt, BannedUntil := none, RetryAfter := 0 }, none), s)

/-- The counter key absent, no ban: the state a fresh identity starts a
window in. -/
def freshState : RedisState :=
  { banVal := none, banTTL := 0, counter := none, counterTTL := 0 }

/-- The store state after `n` successive `CheckLimit` calls starting
from `s`. -/
def checkIter (cfg : RateLimitConfig) (isVIP : Bool) (now : Int)
    (b : StoreBehavior) : Nat → RedisState → RedisState
  | 0, s => s
  | n + 1, s => (CheckLimit cfg isVIP now b (checkIter cfg isVIP now b n s)).2

/-! Cache service embedding (internal/services/cache_service.go on top of
internal/redis/redis.go). -/

/-- The `config.CacheConfig` struct (config.go:20-24). -/
structure CacheConfig where
  Enabled : Bool
  DefaultTTL : Int
  HotDataTTL : Int
  deriving Repr, DecidableEq

/-- The process-local `atomic.Uint64` counters of `CacheService`
(cache_service.go:20-22); a fresh service starts them at 0. -/
structure CacheState where
  hits : Nat
  misses : Nat
  evictions : Nat
  deriving Repr, DecidableEq

/-- Wrapping addition of `atomic.Uint64.Add`. -/
def u64add (a b : Nat) : Nat := (a + b) % 2 ^ 64

/-- Constructor `NewCacheService` leaves the counters at their zero values. -/
def initialCacheState : CacheState := { hits := 0, misses := 0, evictions := 0 }

/-- Whether `pat` occurs at the start of `l` (character-list form of Go
`strings.HasPrefix`, the building block of `strings.Contains`). -/
def leadsWith : List Char → List Char → Bool
  | [], _ => true
  | _ :: _, [] => false
  | a :: as, b :: bs => a = b && leadsWith as bs

/-- Whether `pat` occurs somewhere inside `l`. -/
def occursIn (pat : List Char) : List Char → Bool
  | [] => pat.isEmpty
  | b :: bs => leadsWith pat (b :: bs) || occursIn pat bs

/-- Go `strings.Contains s sub`. -/
def goContains (s sub : String) : Bool := occursIn sub.toList s.toList

/-- Outcome of the underlying `redis.Client.Get` call (redis.go:66-82):
success, `redis.Nil` (key absent), a store failure, or a JSON
deserialization failure. -/
inductive RGetResp where
  | ok
  | nilKey
  | storeErr (base : String)
  | unmarshalErr (base : String)
  deriving Repr, DecidableEq

/-- The error returned by `redis.Client.Get` for each outcome, with the
exact wrapping strings of redis.go:70,72,77. -/
def redisGetErr (key : String) : RGetResp → Option String
  | RGetResp.ok => none
  | RGetResp.nilKey => some ("key " ++ key ++ " not found")
  | RGetResp.storeErr base => some ("failed to get key " ++ key ++ ": " ++ base)
  | RGetResp.unmarshalErr base =>
    some ("failed to unmarshal value for key " ++ key ++ ": " ++ base)

/-- Method `CacheService.Get` (cache_service.go:45-65): returns the
`(found, error)` pair and the updated counters. Any error whose message
contains the substring `"not found"` is counted as a miss; other errors
are returned to the caller. -/
def cacheGet (cfg : CacheConfig) (key : String) (resp : RGetResp)
    (s : CacheState) : (Bool × Option String) × CacheState :=
  if cfg.Enabled = false then
    ((false, none), { s with misses := u64add s.misses 1 })
  else
    match redisGetErr key resp with
    | some msg =>
      if goContains msg "not found" then
        ((false, none), { s with misses := u64add s.misses 1 })
      else
        ((false, some msg), s)
    | none => ((true, none), { s with hits := u64add s.hits 1 })

/-- Method `CacheService.Set` (cache_service.go:68-80): a no-op when caching is
disabled; otherwise the store call's error (`resp`) is propagated.
Counters are never touched. -/
def cacheSet (cfg : CacheConfig) (resp : Option String) (s : CacheState) :
    Option String × CacheState :=
  if cfg.Enabled = false then (none, s)
  else (resp, s)

/-- Method `CacheService.Delete` (cache_service.go:83-103): a no-op when caching
is disabled; otherwise on pipeline success the eviction counter grows by
the number of keys, and on failure the error is returned. -/
def cacheDelete (cfg : CacheConfig) (keys : List String) (resp : Option String)
    (s : CacheState) : Option String × CacheState :=
  if cfg.Enabled = false then (none, s)
  else
    match resp with
    | some e => (some e, s)
    | none => (none, { s with evictions := u64add s.evictions keys.length })

/-- Metrics struct `CacheMetrics` (cache_service.go:26-33); the `float64` hit rate is
modelled in `ℚ`. -/
structure CacheMetrics where
  Hits : Nat
  Misses : Nat
  Evictions : Nat
  TotalReqs : Nat
  HitRate : ℚ
  CacheSize : Int
  deriving Repr, DecidableEq

/-- Method `CacheService.GetMetrics` (cache_service.go:106-133): `dbSize` is the
result of the live `DBSize` query, `none` on failure (then reported as 0). -/
def GetMetrics (s : CacheState) (dbSize : Option Int) : CacheMetrics :=
  let totalReqs := u64add s.hits s.misses
  { Hits := s.hits, Misses := s.misses, Evictions := s.evictions,
    TotalReqs := totalReqs,
    HitRate := if totalReqs > 0 then ((s.hits : ℚ) / (totalReqs : ℚ)) * 100 else 0,
    CacheSize := match dbSize with | some n => n | none => 0 }

/-- One cache-service operation together with the store's response to it. -/
inductive CacheOp where
  | get (key : String) (resp : RGetResp)
  | set (resp : Option String)
  | del (keys : List String) (resp : Option String)
  deriving Repr, DecidableEq

/-- Run a sequence of cache operations, threading the counters. -/
def runOps (cfg : CacheConfig) : List CacheOp → CacheState → CacheState
  | [], s => s
  | op :: ops, s =>
    match op with
    | CacheOp.get key resp => runOps cfg ops (cacheGet cfg key resp s).2
    | CacheOp.set resp => runOps cfg ops (cacheSet cfg resp s).2
    | CacheOp.del keys resp => runOps cfg ops (cacheDelete cfg keys resp s).2

/-- Run a sequence of gets only, threading the counters. -/
def runGets (cfg : CacheConfig) : List (String × RGetResp) → CacheState → CacheState
  | [], s => s
  | g :: gs, s => runGets cfg gs (cacheGet cfg g.1 g.2 s).2

/-! Helper lemmas. -/

/-- With the ban GET succeeding and no visible ban, a normal `Eval` whose
post-increment count stays within the limit takes the allowed branch:
the counter is rewritten to the incremented value with the full window
TTL of 60 and the result reports the remaining quota. -/
theorem checkLimit_step_allowed (cfg : RateLimitConfig) (isVIP : Bool)
    (now : Int) (b : StoreBehavior) (s : RedisState)
    (hEn : cfg.Enabled = true) (hban : visibleBanVal b.banGetOk s = "")
    (hev : b.eval = EvalBehavior.normal)
    (hle : counterVal s + 1 ≤ tierLimit cfg isVIP) :
    CheckLimit cfg isVIP now b s =
      (({ Allowed := true,
          Remaining := tierLimit cfg isVIP - (counterVal s + 1),
          Limit := tierLimit cfg isVIP, ResetAt := some (now + 60),
          BannedUntil := none, RetryAfter := 0 }, none),
       { s with counter := some (counterVal s + 1), counterTTL := 60 }) := by
  have hnot : ¬ (counterVal s + 1 > tierLimit cfg isVIP) := by omega
  simp only [CheckLimit, rateLimitLuaScript, hEn, hban, hev, if_neg hnot,
    Bool.true_eq_false, if_false, ne_eq, not_true_eq_false]
  simp [RedisState.ttlCounter]

/-- With the ban GET succeeding and no visible ban, a normal `Eval` whose
post-increment count exceeds the limit takes the rejected branch: the
counter is left untouched and (the ban SET succeeding) the ban record is
written with the configured ban duration. -/
theorem checkLimit_step_rejected (cfg : RateLimitConfig) (isVIP : Bool)
    (now : Int) (b : StoreBehavior) (s : RedisState)
    (hEn : cfg.Enabled = true) (hban : visibleBanVal b.banGetOk s = "")
    (hev : b.eval = EvalBehavior.normal) (hset : b.banSetOk = true)
    (hgt : tierLimit cfg isVIP < counterVal s + 1) :
    CheckLimit cfg isVIP now b s =
      (({ Allowed := false, Remaining := 0, Limit := tierLimit cfg isVIP,
          ResetAt := none, BannedUntil := some (now + cfg.BanDuration),
          RetryAfter := cfg.BanDuration }, none),
       { s with banVal := some "1", banTTL := cfg.BanDuration }) := by
  have hgt' : counterVal s + 1 > tierLimit cfg isVIP := hgt
  simp only [CheckLimit, rateLimitLuaScript, hEn, hban, hev, hset, if_pos hgt',
    Bool.true_eq_false, if_false, ne_eq, not_true_eq_false]
  simp

/-- Iterating `CheckLimit` from a fresh identity under a fully available
store keeps the ban absent and the counter equal to the number of calls,
as long as that number stays within the limit. -/
theorem checkIter_fresh_inv (cfg : RateLimitConfig) (isVIP : Bool) (now : Int)
    (hEn : cfg.Enabled = true) :
    ∀ n : Nat, (n : Int) ≤ tierLimit cfg isVIP →
      (checkIter cfg isVIP now normalBehavior n freshState).banVal = none ∧
      (checkIter cfg isVIP now normalBehavior n freshState).banTTL = 0 ∧
      counterVal (checkIter cfg isVIP now normalBehavior n freshState) = n := by
  intro n
  induction n with
  | zero => intro _; exact ⟨rfl, rfl, rfl⟩
  | succ n ih =>
    intro h
    have hn : (n : Int) ≤ tierLimit cfg isVIP := by
      have : ((n : Int) + 1) ≤ tierLimit cfg isVIP := by exact_mod_cast h
      omega
    obtain ⟨hban, hbt, hcnt⟩ := ih hn
    have hvis : visibleBanVal normalBehavior.banGetOk
        (checkIter cfg isVIP now normalBehavior n freshState) = "" := by
      unfold visibleBanVal
      rw [hban]
      rfl
    have hle : counterVal (checkIter cfg isVIP now normalBehavior n freshState)
        + 1 ≤ tierLimit cfg isVIP := by
      rw [hcnt]
      exact_mod_cast h
    have hstep := checkLimit_step_allowed cfg isVIP now normalBehavior
      (checkIter cfg isVIP now normalBehavior n freshState) hEn hvis rfl hle
    show (CheckLimit cfg isVIP now normalBehavior
        (checkIter cfg isVIP now normalBehavior n freshState)).2.banVal = none ∧
      (CheckLimit cfg isVIP now normalBehavior
        (checkIter cfg isVIP now normalBehavior n freshState)).2.banTTL = 0 ∧
      counterVal (CheckLimit cfg isVIP now normalBehavior
        (checkIter cfg isVIP now normalBehavior n freshState)).2 = ((n + 1 : ℕ) : Int)
    rw [hstep]
    refine ⟨hban, hbt, ?_⟩
    show counterVal (checkIter cfg isVIP now normalBehavior n freshState) + 1 =
      ((n + 1 : ℕ) : Int)
    rw [hcnt]
    push_cast
    ring

/-! Claim theorems. -/

/-- C1: with admission enabled and a fully available store, starting from a
fresh window, each of the first `limit` CheckLimit calls returns
allowed=true, and the `(limit+1)`-th call returns allowed=false and writes
the ban record with the configured ban duration as its TTL. -/
theorem checkLimit_allows_exactly_limit (cfg : RateLimitConfig) (isVIP : Bool)
    (now : Int) (hEn : cfg.Enabled = true) (hL : 0 ≤ tierLimit cfg isVIP) :
    (∀ n : Nat, (n : Int) < tierLimit cfg isVIP →
      (CheckLimit cfg isVIP now normalBehavior
        (checkIter cfg isVIP now normalBehavior n freshState)).1.1.Allowed = true) ∧
    (CheckLimit cfg isVIP now normalBehavior
      (checkIter cfg isVIP now normalBehavior (tierLimit cfg isVIP).toNat
        freshState)).1.1.Allowed = false ∧
    (CheckLimit cfg isVIP now normalBehavior
      (checkIter cfg isVIP now normalBehavior (tierLimit cfg isVIP).toNat
        freshState)).2.banVal = some "1" ∧
    (CheckLimit cfg isVIP now normalBehavior
      (checkIter cfg isVIP now normalBehavior (tierLimit cfg isVIP).toNat
        freshState)).2.banTTL = cfg.BanDuration := by
  constructor
  · intro n hn
    obtain ⟨hban, _, hcnt⟩ := checkIter_fresh_inv cfg isVIP now hEn n (le_of_lt hn)
    have hvis : visibleBanVal normalBehavior.banGetOk
        (checkIter cfg isVIP now normalBehavior n freshState) = "" := by
      unfold visibleBanVal
      rw [hban]
      rfl
    have hle1 : counterVal (checkIter cfg isVIP now normalBehavior n freshState)
        + 1 ≤ tierLimit cfg isVIP := by
      rw [hcnt]
      omega
    rw [checkLimit_step_allowed cfg isVIP now normalBehavior _ hEn hvis rfl hle1]
  · have hLn : ((tierLimit cfg isVIP).toNat : Int) = tierLimit cfg isVIP :=
      Int.toNat_of_nonneg hL
    obtain ⟨hban, _, hcnt⟩ := checkIter_fresh_inv cfg isVIP now hEn
      (tierLimit cfg isVIP).toNat (le_of_eq hLn)
    have hvis : visibleBanVal normalBehavior.banGetOk
        (checkIter cfg isVIP now normalBehavior (tierLimit cfg isVIP).toNat
          freshState) = "" := by
      unfold visibleBanVal
      rw [hban]
      rfl
    have hgt : tierLimit cfg isVIP <
        counterVal (checkIter cfg isVIP now normalBehavior
          (tierLimit cfg isVIP).toNat freshState) + 1 := by
      rw [hcnt, hLn]
      omega
    rw [checkLimit_step_rejected cfg isVIP now normalBehavior _ hEn hvis rfl rfl hgt]
    exact ⟨rfl, rfl, rfl⟩

/-- C1 witness: with limit 2, the second call is allowed and the third is
rejected. -/
theorem checkLimit_allows_exactly_limit_witness :
    (CheckLimit ⟨true, 2, 5, 300⟩ false 0 normalBehavior
      (checkIter ⟨true, 2, 5, 300⟩ false 0 normalBehavior 1 freshState)).1.1.Allowed
        = true ∧
    (CheckLimit ⟨true, 2, 5, 300⟩ false 0 normalBehavior
      (checkIter ⟨true, 2, 5, 300⟩ false 0 normalBehavior 2 freshState)).1.1.Allowed
        = false := by
  have h := checkLimit_allows_exactly_limit ⟨true, 2, 5, 300⟩ false 0 rfl (by decide)
  exact ⟨h.1 1 (by decide), h.2.1⟩

/-- C2: when the ban check finds no visible ban and the atomic scripted
step fails with a store error or returns a result of unexpected shape,
CheckLimit fails open: allowed=true with remaining equal to the tier
limit, and the store state is untouched. -/
theorem checkLimit_fail_open (cfg : RateLimitConfig) (isVIP : Bool) (now : Int)
    (b : StoreBehavior) (s : RedisState) (hEn : cfg.Enabled = true)
    (hban : visibleBanVal b.banGetOk s = "")
    (hev : b.eval = EvalBehavior.storeError ∨ b.eval = EvalBehavior.malformed) :
    (CheckLimit cfg isVIP now b s).1.1 =
      { Allowed := true, Remaining := tierLimit cfg isVIP,
        Limit := tierLimit cfg isVIP, ResetAt := none, BannedUntil := none,
        RetryAfter := 0 } ∧
    (CheckLimit cfg isVIP now b s).2 = s := by
  rcases hev with hev | hev <;>
    simp [CheckLimit, hEn, hban, hev]

/-- C2 witness: a store error during the atomic step on a fresh identity
yields allowed=true with remaining = limit = 5. -/
theorem checkLimit_fail_open_witness :
    (CheckLimit ⟨true, 5, 10, 300⟩ false 0
      ⟨true, EvalBehavior.storeError, true⟩ freshState).1.1 =
      { Allowed := true, Remaining := 5, Limit := 5, ResetAt := none,
        BannedUntil := none, RetryAfter := 0 } ∧
    (CheckLimit ⟨true, 5, 10, 300⟩ false 0
      ⟨true, EvalBehavior.storeError, true⟩ freshState).2 = freshState := by
  exact checkLimit_fail_open ⟨true, 5, 10, 300⟩ false 0
    ⟨true, EvalBehavior.storeError, true⟩ freshState rfl rfl (Or.inl rfl)

/-- C3: when the ban record is present (with the non-empty sentinel value
the service writes) and the ban GET succeeds, CheckLimit returns
allowed=false immediately with retryAfter equal to the remaining ban TTL
and leaves the whole store state — in particular the quota counter's value
and TTL — unchanged. -/
theorem checkLimit_ban_precedence (cfg : RateLimitConfig) (isVIP : Bool)
    (now : Int) (b : StoreBehavior) (s : RedisState) (v : String)
    (hEn : cfg.Enabled = true) (hOk : b.banGetOk = true)
    (hv : s.banVal = some v) (hne : v ≠ "") :
    (CheckLimit cfg isVIP now b s).1.1.Allowed = false ∧
    (CheckLimit cfg isVIP now b s).1.1.RetryAfter = s.banTTL ∧
    (CheckLimit cfg isVIP now b s).2 = s := by
  have hvis : visibleBanVal b.banGetOk s = v := by
    unfold visibleBanVal
    rw [hOk, hv]
    rfl
  simp [CheckLimit, hEn, hvis, hne, RedisState.ttlBan, hv]

/-- C3 witness: a banned identity with 42 seconds of ban left is rejected
with retryAfter 42 and an unchanged store. -/
theorem checkLimit_ban_precedence_witness :
    (CheckLimit ⟨true, 5, 10, 300⟩ false 7 normalBehavior
      ⟨some "1", 42, some 3, 20⟩).1.1.Allowed = false ∧
    (CheckLimit ⟨true, 5, 10, 300⟩ false 7 normalBehavior
      ⟨some "1", 42, some 3, 20⟩).1.1.RetryAfter =
      (⟨some "1", 42, some 3, 20⟩ : RedisState).banTTL ∧
    (CheckLimit ⟨true, 5, 10, 300⟩ false 7 normalBehavior
      ⟨some "1", 42, some 3, 20⟩).2 = ⟨some "1", 42, some 3, 20⟩ := by
  exact checkLimit_ban_precedence ⟨true, 5, 10, 300⟩ false 7 normalBehavior
    ⟨some "1", 42, some 3, 20⟩ "1" rfl rfl rfl (by decide)

/-- C10: for every configuration, tier, store state and store behavior
(disabled, banned, allowed, rejected, store error, malformed reply),
CheckLimit returns a nil error. -/
theorem checkLimit_never_errors (cfg : RateLimitConfig) (isVIP : Bool)
    (now : Int) (b : StoreBehavior) (s : RedisState) :
    (CheckLimit cfg isVIP now b s).1.2 = none := by
  by_cases hEn : cfg.Enabled = false
  · simp [CheckLimit, hEn]
  · by_cases hb : visibleBanVal b.banGetOk s = ""
    · rcases b with ⟨bg, ev, bs⟩
      cases ev <;> by_cases hc : counterVal s + 1 > tierLimit cfg isVIP <;>
        simp [CheckLimit, rateLimitLuaScript, hEn, hb, hc]
    · simp [CheckLimit, hEn, hb]

/-- C4 counterexample: an allowed CheckLimit call on an existing counter
whose remaining TTL is 30 rewrites the key with the full window TTL of 60:
the expiry is changed by the increment, refuting fixed-at-creation TTL. -/
theorem counter_ttl_refresh_cex :
    (CheckLimit ⟨true, 5, 10, 300⟩ false 0 normalBehavior
      ⟨none, 0, some 1, 30⟩).1.1.Allowed = true ∧
    (CheckLimit ⟨true, 5, 10, 300⟩ false 0 normalBehavior
      ⟨none, 0, some 1, 30⟩).2.counter = some 2 ∧
    (CheckLimit ⟨true, 5, 10, 300⟩ false 0 normalBehavior
      ⟨none, 0, some 1, 30⟩).2.counterTTL = 60 ∧
    ¬ (CheckLimit ⟨true, 5, 10, 300⟩ false 0 normalBehavior
      ⟨none, 0, some 1, 30⟩).2.counterTTL =
        (⟨none, 0, some 1, 30⟩ : RedisState).counterTTL := by
  decide

/-- C4 amended: the atomic step rewrites the counter with the full window
TTL (60 s) on every allowed call — the expiry is refreshed by each
admitted increment, not fixed at creation — while a rejected call leaves
both the counter's value and its TTL unchanged. -/
theorem counter_ttl_refreshed_on_allow (cfg : RateLimitConfig) (isVIP : Bool)
    (now : Int) (b : StoreBehavior) (s : RedisState)
    (hEn : cfg.Enabled = true) (hban : visibleBanVal b.banGetOk s = "")
    (hev : b.eval = EvalBehavior.normal) :
    ((CheckLimit cfg isVIP now b s).1.1.Allowed = true →
      (CheckLimit cfg isVIP now b s).2.counter = some (counterVal s + 1) ∧
      (CheckLimit cfg isVIP now b s).2.counterTTL = 60) ∧
    ((CheckLimit cfg isVIP now b s).1.1.Allowed = false →
      (CheckLimit cfg isVIP now b s).2.counter = s.counter ∧
      (CheckLimit cfg isVIP now b s).2.counterTTL = s.counterTTL) := by
  by_cases hc : counterVal s + 1 ≤ tierLimit cfg isVIP
  · rw [checkLimit_step_allowed cfg isVIP now b s hEn hban hev hc]
    exact ⟨fun _ => ⟨rfl, rfl⟩, fun h => absurd h (by simp)⟩
  · have hgt : tierLimit cfg isVIP < counterVal s + 1 := by omega
    by_cases hset : b.banSetOk = true
    · rw [checkLimit_step_rejected cfg isVIP now b s hEn hban hev hset hgt]
      exact ⟨fun h => absurd h (by simp), fun _ => ⟨rfl, rfl⟩⟩
    · have hgt' : counterVal s + 1 > tierLimit cfg isVIP := hgt
      simp [CheckLimit, rateLimitLuaScript, hEn, hban, hev, hset, hgt']

/-- C4 amended witness: allowed call on a counter at value 1 and TTL 30
yields value 2 and TTL 60. -/
theorem counter_ttl_refreshed_on_allow_witness :
    (CheckLimit ⟨true, 5, 10, 300⟩ false 0 normalBehavior
      ⟨none, 0, some 1, 30⟩).2.counter = some 2 ∧
    (CheckLimit ⟨true, 5, 10, 300⟩ false 0 normalBehavior
      ⟨none, 0, some 1, 30⟩).2.counterTTL = 60 := by
  exact (counter_ttl_refreshed_on_allow ⟨true, 5, 10, 300⟩ false 0
    normalBehavior ⟨none, 0, some 1, 30⟩ rfl rfl rfl).1 (by decide)

/-- C5: GetStatus never changes the store state; its reported remaining is
floored at 0; and when the quota counter is absent (and no ban is
visible), the reported count is 0 — remaining is the full (non-negative
part of the) limit, allowed reflects `0 < limit` — and resetAt is the
zero/unset time value because the TTL query reports a non-existent key. -/
theorem getStatus_nonmutating (cfg : RateLimitConfig) (isVIP : Bool)
    (now : Int) (banGetOk countGetOk : Bool) (s : RedisState) :
    (GetStatus cfg isVIP now banGetOk countGetOk s).2 = s ∧
    0 ≤ (GetStatus cfg isVIP now banGetOk countGetOk s).1.1.Remaining ∧
    (cfg.Enabled = true → visibleBanVal banGetOk s = "" → s.counter = none →
      (GetStatus cfg isVIP now banGetOk countGetOk s).1.1.Remaining =
        max (tierLimit cfg isVIP) 0 ∧
      (GetStatus cfg isVIP now banGetOk countGetOk s).1.1.Allowed =
        decide (0 < tierLimit cfg isVIP) ∧
      (GetStatus cfg isVIP now banGetOk countGetOk s).1.1.ResetAt = none) := by
  refine ⟨?_, ?_, ?_⟩
  · by_cases hEn : cfg.Enabled = false
    · simp [GetStatus, hEn]
    · by_cases hb : visibleBanVal banGetOk s = ""
      · simp [GetStatus, hEn, hb]
      · simp [GetStatus, hEn, hb]
  · by_cases hEn : cfg.Enabled = false
    · simp [GetStatus, hEn, maxInt]
    · by_cases hb : visibleBanVal banGetOk s = ""
      · cases countGetOk <;> simp [GetStatus, hEn, hb] <;> split <;> omega
      · simp [GetStatus, hEn, hb]
  · intro hEn hb hcnt
    have hcv : counterVal s = 0 := by simp [counterVal, hcnt]
    have httl : s.ttlCounter = -2 := by simp [RedisState.ttlCounter, hcnt]
    simp only [GetStatus, hEn, Bool.true_eq_false, if_false, hb, ne_eq,
      not_true_eq_false, hcv, httl]
    refine ⟨?_, ?_, ?_⟩
    · cases countGetOk <;> simp <;> omega
    · cases countGetOk <;> simp
    · norm_num

/-- C5 witness: with limit 5 and a fresh identity, GetStatus leaves the
state unchanged, reports remaining 5, allowed, and an unset resetAt. -/
theorem getStatus_nonmutating_witness :
    (GetStatus ⟨true, 5, 10, 300⟩ false 9 true true freshState).2 = freshState ∧
    (GetStatus ⟨true, 5, 10, 300⟩ false 9 true true
      freshState).1.1.Remaining = max (tierLimit ⟨true, 5, 10, 300⟩ false) 0 ∧
    (GetStatus ⟨true, 5, 10, 300⟩ false 9 true true
      freshState).1.1.ResetAt = none := by
  have h := getStatus_nonmutating ⟨true, 5, 10, 300⟩ false 9 true true freshState
  have h3 := h.2.2 rfl rfl rfl
  exact ⟨h.1, h3.1, h3.2.2⟩

/-- C9 counterexample: a ban key present but holding the empty string is
NOT treated as banned — CheckLimit admits the request (and increments the
counter) and GetStatus reports allowed — refuting presence irrespective of
value. -/
theorem ban_empty_value_cex :
    (CheckLimit ⟨true, 5, 10, 300⟩ false 0 normalBehavior
      ⟨some "", 100, none, 0⟩).1.1.Allowed = true ∧
    (CheckLimit ⟨true, 5, 10, 300⟩ false 0 normalBehavior
      ⟨some "", 100, none, 0⟩).2.counter = some 1 ∧
    (GetStatus ⟨true, 5, 10, 300⟩ false 0 true true
      ⟨some "", 100, none, 0⟩).1.1.Allowed = true := by
  decide

/-- C9 amended: a ban key present with a NON-EMPTY value (such as the
sentinel "1" the service writes) makes both CheckLimit and GetStatus
report allowed=false; presence with an empty value is treated as not
banned. -/
theorem ban_nonempty_value_means_banned (cfg : RateLimitConfig)
    (isVIP : Bool) (now : Int) (b : StoreBehavior) (countGetOk : Bool)
    (s : RedisState) (v : String) (hEn : cfg.Enabled = true)
    (hOk : b.banGetOk = true) (hv : s.banVal = some v) (hne : v ≠ "") :
    (CheckLimit cfg isVIP now b s).1.1.Allowed = false ∧
    (GetStatus cfg isVIP now true countGetOk s).1.1.Allowed = false := by
  have hvis : visibleBanVal b.banGetOk s = v := by
    unfold visibleBanVal
    rw [hOk, hv]
    rfl
  have hvis' : visibleBanVal true s = v := by
    unfold visibleBanVal
    rw [hv]
    rfl
  constructor
  · simp [CheckLimit, hEn, hvis, hne]
  · simp [GetStatus, hEn, hvis', hne]

/-- C9 amended witness: the sentinel value "1" written by the service is
treated as banned by both paths. -/
theorem ban_nonempty_value_means_banned_witness :
    (CheckLimit ⟨true, 5, 10, 300⟩ false 0 normalBehavior
      ⟨some "1", 100, none, 0⟩).1.1.Allowed = false ∧
    (GetStatus ⟨true, 5, 10, 300⟩ false 0 true true
      ⟨some "1", 100, none, 0⟩).1.1.Allowed = false := by
  exact ban_nonempty_value_means_banned ⟨true, 5, 10, 300⟩ false 0
    normalBehavior true ⟨some "1", 100, none, 0⟩ "1" rfl rfl rfl (by decide)

/-- C6 counterexample: with caching enabled, a Get failing with a store
error (not NotFound) returns the error to the caller but does NOT
increment the miss counter — both counters are left at 0 — refuting the
claimed miss increment. -/
theorem cacheGet_error_cex :
    (cacheGet ⟨true, 300, 60⟩ "order:1"
      (RGetResp.storeErr "connection refused") ⟨0, 0, 0⟩).1.2 =
      some "failed to get key order:1: connection refused" ∧
    (cacheGet ⟨true, 300, 60⟩ "order:1"
      (RGetResp.storeErr "connection refused") ⟨0, 0, 0⟩).2.misses = 0 ∧
    (cacheGet ⟨true, 300, 60⟩ "order:1"
      (RGetResp.storeErr "connection refused") ⟨0, 0, 0⟩).2.hits = 0 := by
  decide

/-- C6 amended: with caching enabled, a Get failing with an error whose
message is not classified as not-found returns the error to the caller
and leaves the hit and miss counters (the whole counter state) unchanged. -/
theorem cacheGet_error_propagation (cfg : CacheConfig) (key : String)
    (resp : RGetResp) (msg : String) (s : CacheState)
    (hEn : cfg.Enabled = true) (hmsg : redisGetErr key resp = some msg)
    (hnf : goContains msg "not found" = false) :
    cacheGet cfg key resp s = ((false, some msg), s) := by
  simp [cacheGet, hEn, hmsg, hnf]

/-- C6 amended witness: a store error on key "k" is propagated with
counters untouched. -/
theorem cacheGet_error_propagation_witness :
    cacheGet ⟨true, 300, 60⟩ "k" (RGetResp.storeErr "boom") ⟨2, 3, 4⟩ =
      ((false, some "failed to get key k: boom"), ⟨2, 3, 4⟩) := by
  exact cacheGet_error_propagation ⟨true, 300, 60⟩ "k"
    (RGetResp.storeErr "boom") "failed to get key k: boom" ⟨2, 3, 4⟩
    rfl rfl (by decide)

/-- C7: with caching disabled, every Get returns found=false and
increments the miss counter, Set and Delete are no-ops returning success,
and over any sequence of operations the hit counter never advances. -/
theorem cache_disabled_noop (cfg : CacheConfig) (h : cfg.Enabled = false) :
    (∀ key resp s, cacheGet cfg key resp s =
      ((false, none), { s with misses := u64add s.misses 1 })) ∧
    (∀ resp s, cacheSet cfg resp s = (none, s)) ∧
    (∀ keys resp s, cacheDelete cfg keys resp s = (none, s)) ∧
    (∀ ops s, (runOps cfg ops s).hits = s.hits) := by
  refine ⟨?_, ?_, ?_, ?_⟩
  · intro key resp s
    simp [cacheGet, h]
  · intro resp s
    simp [cacheSet, h]
  · intro keys resp s
    simp [cacheDelete, h]
  · intro ops
    induction ops with
    | nil => intro s; rfl
    | cons op ops ih =>
      intro s
      cases op <;> simp [runOps, cacheGet, cacheSet, cacheDelete, h, ih]

/-- C7 witness: with caching disabled, a Get bumps misses only, Set and
Delete leave everything alone, and a run of all three keeps hits at 1. -/
theorem cache_disabled_noop_witness :
    cacheGet ⟨false, 300, 60⟩ "k" RGetResp.ok ⟨1, 2, 3⟩ =
      ((false, none), ⟨1, 3, 3⟩) ∧
    cacheSet ⟨false, 300, 60⟩ (some "e") ⟨1, 2, 3⟩ = (none, ⟨1, 2, 3⟩) ∧
    cacheDelete ⟨false, 300, 60⟩ ["a", "b"] none ⟨1, 2, 3⟩ = (none, ⟨1, 2, 3⟩) ∧
    (runOps ⟨false, 300, 60⟩
      [CacheOp.get "k" RGetResp.ok, CacheOp.set none,
        CacheOp.del ["a"] none] ⟨1, 2, 3⟩).hits = 1 := by
  have h := cache_disabled_noop ⟨false, 300, 60⟩ rfl
  refine ⟨?_, h.2.1 (some "e") ⟨1, 2, 3⟩, h.2.2.1 ["a", "b"] none ⟨1, 2, 3⟩, ?_⟩
  · rw [h.1 "k" RGetResp.ok ⟨1, 2, 3⟩]
    decide
  · rw [h.2.2.2 [CacheOp.get "k" RGetResp.ok, CacheOp.set none,
      CacheOp.del ["a"] none] ⟨1, 2, 3⟩]

/-- Each cache Get grows the combined hit+miss count by at most one
(exactly one when a counter is bumped; the wrapping addition can only
make the stored value smaller). -/
theorem runGets_sum_le (cfg : CacheConfig) :
    ∀ (gs : List (String × RGetResp)) (s : CacheState),
      (runGets cfg gs s).hits + (runGets cfg gs s).misses ≤
        s.hits + s.misses + gs.length := by
  intro gs
  induction gs with
  | nil => intro s; simp [runGets]
  | cons g gs ih =>
    intro s
    have hstep : (cacheGet cfg g.1 g.2 s).2.hits +
        (cacheGet cfg g.1 g.2 s).2.misses ≤ s.hits + s.misses + 1 := by
      have hm := Nat.mod_le (s.misses + 1) (2 ^ 64)
      have hh := Nat.mod_le (s.hits + 1) (2 ^ 64)
      unfold cacheGet u64add
      split
      · simp
        omega
      · split
        · split
          · simp
            omega
          · simp
        · simp
          omega
    calc (runGets cfg (g :: gs) s).hits + (runGets cfg (g :: gs) s).misses
        ≤ (cacheGet cfg g.1 g.2 s).2.hits + (cacheGet cfg g.1 g.2 s).2.misses
            + gs.length := ih (cacheGet cfg g.1 g.2 s).2
      _ ≤ s.hits + s.misses + (gs.length + 1) := by omega
      _ = s.hits + s.misses + (g :: gs).length := by simp

/-- C8: for every sequence of gets (of any realizable length) from a fresh
service, the metrics snapshot reports totalRequests = hits + misses, and
hitRate = 100*hits/(hits+misses) when hits+misses > 0, else 0. -/
theorem getMetrics_hit_rate (cfg : CacheConfig) (dbSize : Option Int)
    (gs : List (String × RGetResp)) (hlen : gs.length < 2 ^ 64) :
    (GetMetrics (runGets cfg gs initialCacheState) dbSize).TotalReqs =
      (runGets cfg gs initialCacheState).hits +
        (runGets cfg gs initialCacheState).misses ∧
    (0 < (runGets cfg gs initialCacheState).hits +
        (runGets cfg gs initialCacheState).misses →
      (GetMetrics (runGets cfg gs initialCacheState) dbSize).HitRate =
        100 * ((runGets cfg gs initialCacheState).hits : ℚ) /
          (((runGets cfg gs initialCacheState).hits : ℚ) +
            ((runGets cfg gs initialCacheState).misses : ℚ))) ∧
    ((runGets cfg gs initialCacheState).hits +
        (runGets cfg gs initialCacheState).misses = 0 →
      (GetMetrics (runGets cfg gs initialCacheState) dbSize).HitRate = 0) := by
  have hb : (runGets cfg gs initialCacheState).hits +
      (runGets cfg gs initialCacheState).misses ≤ gs.length := by
    simpa [initialCacheState] using runGets_sum_le cfg gs initialCacheState
  have hlt : (runGets cfg gs initialCacheState).hits +
      (runGets cfg gs initialCacheState).misses < 2 ^ 64 :=
    lt_of_le_of_lt hb hlen
  have htot : u64add (runGets cfg gs initialCacheState).hits
      (runGets cfg gs initialCacheState).misses =
      (runGets cfg gs initialCacheState).hits +
        (runGets cfg gs initialCacheState).misses :=
    Nat.mod_eq_of_lt hlt
  refine ⟨by simp [GetMetrics, htot], ?_, ?_⟩
  · intro hpos
    simp only [GetMetrics, htot]
    rw [if_pos hpos]
    push_cast
    rw [div_mul_eq_mul_div, mul_comm]
  · intro hzero
    simp [GetMetrics, htot, hzero]

/-- C8 witness: one hit and one miss give totalRequests 2 and hit rate
100*1/(1+1) = 50. -/
theorem getMetrics_hit_rate_witness :
    (GetMetrics (runGets ⟨true, 300, 60⟩
      [("a", RGetResp.ok), ("b", RGetResp.nilKey)] initialCacheState)
      (some 7)).TotalReqs = 2 ∧
    (GetMetrics (runGets ⟨true, 300, 60⟩
      [("a", RGetResp.ok), ("b", RGetResp.nilKey)] initialCacheState)
      (some 7)).HitRate = 50 := by
  have h := getMetrics_hit_rate ⟨true, 300, 60⟩ (some 7)
    [("a", RGetResp.ok), ("b", RGetResp.nilKey)] (by norm_num)
  have h1 := h.1
  have h2 := h.2.1 (by decide)
  have hrun : runGets ⟨true, 300, 60⟩
      [("a", RGetResp.ok), ("b", RGetResp.nilKey)] initialCacheState =
      ⟨1, 1, 0⟩ := by decide
  rw [hrun] at h1 h2
  rw [hrun, h1, h2]
  norm_num

end DeliverySystem
